import Mathlib

/-!
Verification of the connection layer of libhttp against its specification.

The definitions below are shallow embeddings of the C functions in
src/libhttp/connection.c and src/libhttp/cfg.c. Machine integers are
modelled as Nat (bit sets via Nat.testBit), byte buffers as lists, and
calls into collaborators that live outside this snapshot (libevent, the
bf buffer library, the message parser in parser.c, the route matcher in
route.c) are modelled as oracle arguments or as effect records in an
action trace.
-/

namespace LibHttp

/-- Items appended to the write buffer of a connection by the response
helpers of src/libhttp/connection.c, at the granularity the claims need:
the status line written by http_connection_write_response (keeping its
status code), one header written by http_connection_write_header (keeping
its name), and the canned HTML body written by http_connection_write_body
inside http_connection_http_error (keeping the code formatted into it). -/
inductive WItem where
  | statusLine (code : Nat)
  | header (name : String)
  | bodyHtml (code : Nat)
  deriving DecidableEq

/-- Observable effects of the connection layer of src/libhttp/connection.c:
a call of http_msg_parse, an item buffered for sending, a route handler
invocation, http_connection_shutdown, http_connection_close, the libevent
event_add and event_del calls on the write event, the socket write done by
bf_buffer_write, and the release steps done by http_connection_close. -/
inductive Act where
  | parse
  | emit (it : WItem)
  | invokeHandler
  | shutdown
  | close
  | eventAdd
  | eventDel
  | sockWrite (n : Nat)
  | tableRemove (fd : Int)
  | closeSock
  | freeEvRead
  | freeEvWrite
  | freeRbuf
  | freeWbuf
  | freeParserMsg
  | freeConn
  | freeRequestInfo (i : Nat)
  deriving DecidableEq

/-- Socket input or output effects. http_connection_write and
http_connection_printf only append to the write buffer and register
interest with the reactor; they must never produce one of these. -/
def Act.isSocketOp : Act → Bool
  | Act.sockWrite _ => true
  | _ => false

/-- Write-buffer items produced by one call of http_connection_http_error
(src/libhttp/connection.c lines 158-194): the status line, a Content-Type
header, a Content-Length header and the canned HTML body. The formatted
field values and the reason phrase are below the granularity any claim
needs, so only header names and status codes are kept. -/
def errItems (code : Nat) : List WItem :=
  [WItem.statusLine code, WItem.header "Content-Type",
   WItem.header "Content-Length", WItem.bodyHtml code]

/-- The emission of http_connection_http_error recorded as effects. -/
def httpErrorEmits (code : Nat) : List Act :=
  (errItems code).map Act.emit

/-- The fields of struct http_msg (src/libhttp/internal.h) read by
http_connection_process_msg: the protocol version as the value of the C
enum http_version (HTTP_1_0 = 0, HTTP_1_1 = 1), the Connection option bit
set (HTTP_CONNECTION_KEEP_ALIVE = 0x01, HTTP_CONNECTION_CLOSE = 0x02, see
src/libhttp/http.h lines 146-149) and the raw request target
msg.u.request.uri. -/
structure Msg where
  version : Nat
  connection_options : Nat
  uri : String
  deriving DecidableEq

/-- The connection state read and written by http_connection_process_msg
and by the read-event loop: the negotiated version and the shutting_down
flag set by http_connection_shutdown. -/
structure ConnM where
  http_version : Nat
  shutting_down : Bool
  deriving DecidableEq

/-- Result of the route lookup as consumed by the switch in
http_connection_process_msg (src/libhttp/connection.c lines 470-480).
connection.c names the 405 case HTTP_ROUTE_MATCH_WRONG_METHOD; the
internal.h of this snapshot lists METHOD_NOT_FOUND and PATH_NOT_FOUND,
which fall to the default arm of that switch together with every value
other than the wrong-method one. -/
inductive MatchResult where
  | ok
  | wrongPath
  | wrongMethod
  | methodNotFound
  | pathNotFound
  deriving DecidableEq

/-- The target and dispatch part of http_connection_process_msg
(src/libhttp/connection.c lines 443-485): a target equal to "*" is
rejected with 400 before any lookup; a target on which http_uri_new fails
(oracle uriOk, the URI code is outside this snapshot) is rejected with
400; otherwise the route lookup decides between invoking the handler,
emitting 405 for HTTP_ROUTE_MATCH_WRONG_METHOD, and emitting 404 for
every other mismatch (the default arm of the switch). -/
def http_connection_process_msg_core (uri : String) (uriOk : Bool)
    (handlerFound : Bool) (mr : MatchResult) : List Act :=
  if uri = "*" then httpErrorEmits 400
  else if uriOk = false then httpErrorEmits 400
  else if handlerFound = false then
    match mr with
    | MatchResult.wrongMethod => httpErrorEmits 405
    | _ => httpErrorEmits 404
  else [Act.invokeHandler]

/-- The keep-alive decision at the end label of http_connection_process_msg
(src/libhttp/connection.c lines 488-494): HTTP/1.0 shuts down unless the
request carried Connection keep-alive, HTTP/1.1 shuts down iff it carried
Connection close, every other version value shuts down. -/
def http_do_shutdown (msg : Msg) : Bool :=
  if msg.version = 0 then !(msg.connection_options.testBit 0)
  else if msg.version = 1 then msg.connection_options.testBit 1
  else true

/-- http_connection_process_msg (src/libhttp/connection.c lines 428-503):
record the message version on the connection, run the dispatch part, then
call http_connection_shutdown when the version policy requires it. The
oracles uriOk, handlerFound and mr stand for the results of http_uri_new
and http_route_base_find_msg_handler, both defined outside this
snapshot. -/
def http_connection_process_msg (c : ConnM) (msg : Msg) (uriOk : Bool)
    (handlerFound : Bool) (mr : MatchResult) : ConnM × List Act :=
  let c1 : ConnM :=
    { http_version := msg.version, shutting_down := c.shutting_down }
  let acts1 := http_connection_process_msg_core msg.uri uriOk handlerFound mr
  if http_do_shutdown msg then
    ({ c1 with shutting_down := true }, acts1 ++ [Act.shutdown])
  else (c1, acts1)

/-- The dispatch part never calls http_connection_shutdown itself; the
shutdown only comes from the end label. -/
theorem shutdown_not_mem_core (uri : String) (uriOk handlerFound : Bool)
    (mr : MatchResult) :
    Act.shutdown ∉ http_connection_process_msg_core uri uriOk handlerFound mr := by
  unfold http_connection_process_msg_core
  split
  · simp [httpErrorEmits, errItems]
  · split
    · simp [httpErrorEmits, errItems]
    · split
      · cases mr <;> simp [httpErrorEmits, errItems]
      · simp

/-- The dispatch part never calls the parser. -/
theorem parse_not_mem_core (uri : String) (uriOk handlerFound : Bool)
    (mr : MatchResult) :
    Act.parse ∉ http_connection_process_msg_core uri uriOk handlerFound mr := by
  unfold http_connection_process_msg_core
  split
  · simp [httpErrorEmits, errItems]
  · split
    · simp [httpErrorEmits, errItems]
    · split
      · cases mr <;> simp [httpErrorEmits, errItems]
      · simp

/-- http_connection_process_msg calls the parser in no branch. -/
theorem parse_not_mem_process_msg (c : ConnM) (msg : Msg) (uriOk : Bool)
    (handlerFound : Bool) (mr : MatchResult) :
    Act.parse ∉ (http_connection_process_msg c msg uriOk handlerFound mr).2 := by
  have h := parse_not_mem_core msg.uri uriOk handlerFound mr
  unfold http_connection_process_msg
  split <;> simp_all

/-- Shutdown is attempted by http_connection_process_msg exactly when the
version policy of the end label requires it. -/
theorem shutdown_mem_process_msg_iff (c : ConnM) (msg : Msg) (uriOk : Bool)
    (handlerFound : Bool) (mr : MatchResult) :
    Act.shutdown ∈ (http_connection_process_msg c msg uriOk handlerFound mr).2 ↔
      (if msg.version = 0 then msg.connection_options.testBit 0 = false
       else if msg.version = 1 then msg.connection_options.testBit 1 = true
       else True) := by
  have hn := shutdown_not_mem_core msg.uri uriOk handlerFound mr
  unfold http_connection_process_msg http_do_shutdown
  by_cases hv0 : msg.version = 0
  · by_cases hk : msg.connection_options.testBit 0 <;>
      simp [hv0, hk, hn]
  · by_cases hv1 : msg.version = 1
    · by_cases hc : msg.connection_options.testBit 1 <;>
        simp [hv0, hv1, hc, hn]
    · simp [hv0, hv1, hn]

/-- C1: after processing a completed request, the shutdown decision of
http_connection_process_msg follows the version policy: for HTTP/1.0 the
connection is shut down unless the connection options carry keep-alive,
for HTTP/1.1 it is shut down iff the options carry close, and for every
other version value it is always shut down. -/
theorem claim1_shutdown_policy (c : ConnM) (msg : Msg) (uriOk : Bool)
    (handlerFound : Bool) (mr : MatchResult) :
    Act.shutdown ∈ (http_connection_process_msg c msg uriOk handlerFound mr).2 ↔
      (if msg.version = 0 then msg.connection_options.testBit 0 = false
       else if msg.version = 1 then msg.connection_options.testBit 1 = true
       else True) :=
  shutdown_mem_process_msg_iff c msg uriOk handlerFound mr

/-- C3, counterexample: at the concrete request GET-like message with
target "/a" over HTTP/1.1 whose route lookup fails with the wrong-method
result, the connection emits the 405 status line but emits no Allow
header anywhere, refuting the claim that the 405 response carries an
Allow header listing the allowed methods. -/
theorem claim3_no_allow_header :
    Act.emit (WItem.statusLine 405) ∈
      (http_connection_process_msg ⟨1, false⟩ ⟨1, 0, "/a"⟩ true false
        MatchResult.wrongMethod).2 ∧
    Act.emit (WItem.header "Allow") ∉
      (http_connection_process_msg ⟨1, false⟩ ⟨1, 0, "/a"⟩ true false
        MatchResult.wrongMethod).2 := by
  decide

/-- C3, amended: for a completed request whose target is not "*" and
parses, a route lookup failing with the wrong-method result makes the
connection emit a 405 response whose only headers are Content-Type and
Content-Length, hence without an Allow header; a lookup failing with the
wrong-path result makes it emit a 404 response. -/
theorem claim3_route_mismatch (c : ConnM) (msg : Msg)
    (hne : msg.uri ≠ "*") :
    (Act.emit (WItem.statusLine 405) ∈
        (http_connection_process_msg c msg true false
          MatchResult.wrongMethod).2 ∧
      Act.emit (WItem.header "Allow") ∉
        (http_connection_process_msg c msg true false
          MatchResult.wrongMethod).2) ∧
    Act.emit (WItem.statusLine 404) ∈
      (http_connection_process_msg c msg true false
        MatchResult.wrongPath).2 := by
  unfold http_connection_process_msg http_connection_process_msg_core
  refine ⟨⟨?_, ?_⟩, ?_⟩ <;>
    ((repeat' split) <;> simp_all [httpErrorEmits, errItems])

/-- C3, witness for the amended theorem at a concrete request. -/
theorem claim3_route_mismatch_witness :
    (Act.emit (WItem.statusLine 405) ∈
        (http_connection_process_msg ⟨1, false⟩ ⟨1, 0, "/a"⟩ true false
          MatchResult.wrongMethod).2 ∧
      Act.emit (WItem.header "Allow") ∉
        (http_connection_process_msg ⟨1, false⟩ ⟨1, 0, "/a"⟩ true false
          MatchResult.wrongMethod).2) ∧
    Act.emit (WItem.statusLine 404) ∈
      (http_connection_process_msg ⟨1, false⟩ ⟨1, 0, "/a"⟩ true false
        MatchResult.wrongPath).2 :=
  claim3_route_mismatch ⟨1, false⟩ ⟨1, 0, "/a"⟩ (by decide)

/-- C4, counterexample: for the concrete request with target "*" over
HTTP/1.1 and empty connection options, the connection emits the 400
status line but http_connection_shutdown is never called, because the end
label only shuts down per the version policy; this refutes the claim that
such a request is always followed by a shutdown. -/
theorem claim4_star_no_shutdown :
    Act.emit (WItem.statusLine 400) ∈
      (http_connection_process_msg ⟨1, false⟩ ⟨1, 0, "*"⟩ true false
        MatchResult.ok).2 ∧
    Act.shutdown ∉
      (http_connection_process_msg ⟨1, false⟩ ⟨1, 0, "*"⟩ true false
        MatchResult.ok).2 := by
  decide

/-- C4, amended: for every completed request whose target is exactly "*",
the connection emits a 400 Bad Request response and no route handler is
invoked; the connection is then shut down not unconditionally but exactly
when the usual version policy requires it. -/
theorem claim4_star_target (c : ConnM) (msg : Msg) (uriOk : Bool)
    (handlerFound : Bool) (mr : MatchResult) (hstar : msg.uri = "*") :
    Act.emit (WItem.statusLine 400) ∈
      (http_connection_process_msg c msg uriOk handlerFound mr).2 ∧
    Act.invokeHandler ∉
      (http_connection_process_msg c msg uriOk handlerFound mr).2 ∧
    (Act.shutdown ∈ (http_connection_process_msg c msg uriOk handlerFound mr).2 ↔
      (if msg.version = 0 then msg.connection_options.testBit 0 = false
       else if msg.version = 1 then msg.connection_options.testBit 1 = true
       else True)) := by
  refine ⟨?_, ?_, shutdown_mem_process_msg_iff c msg uriOk handlerFound mr⟩ <;>
  · unfold http_connection_process_msg http_connection_process_msg_core
    (repeat' split) <;> simp_all [httpErrorEmits, errItems]

/-- C4, witness for the amended theorem: an HTTP/1.0 request with target
"*" and no keep-alive option gets the 400 response, no handler, and the
policy says shutdown. -/
theorem claim4_star_target_witness :
    Act.emit (WItem.statusLine 400) ∈
      (http_connection_process_msg ⟨1, false⟩ ⟨0, 0, "*"⟩ true false
        MatchResult.ok).2 ∧
    Act.invokeHandler ∉
      (http_connection_process_msg ⟨1, false⟩ ⟨0, 0, "*"⟩ true false
        MatchResult.ok).2 ∧
    (Act.shutdown ∈
        (http_connection_process_msg ⟨1, false⟩ ⟨0, 0, "*"⟩ true false
          MatchResult.ok).2 ↔
      (if (0 : Nat) = 0 then Nat.testBit 0 0 = false
       else if (0 : Nat) = 1 then Nat.testBit 0 1 = true
       else True)) :=
  claim4_star_target ⟨1, false⟩ ⟨0, 0, "*"⟩ true false MatchResult.ok (by decide)

/-- One outcome of a call of http_msg_parse inside the read-event loop,
supplied as an oracle because the parser lives in parser.c, outside this
snapshot: fatal is the -1 return, incomplete the 0 return, errorState the
HTTP_PARSER_ERROR state carrying the staged parser status_code, doneMsg
the HTTP_PARSER_DONE state carrying the parsed message, the oracles
http_connection_process_msg needs, and the success of http_parser_reset,
and otherState any other parser state after progress. -/
inductive PReturn where
  | fatal
  | incomplete
  | errorState (status : Nat)
  | doneMsg (msg : Msg) (uriOk : Bool) (handlerFound : Bool)
      (mr : MatchResult) (resetOk : Bool)
  | otherState
  deriving DecidableEq

/-- The parse loop of http_connection_on_read_event
(src/libhttp/connection.c lines 264-304), recording one Act.parse per
call of http_msg_parse: a -1 return emits the canned 500 response and
shuts down; a 0 return leaves the loop; HTTP_PARSER_ERROR emits the
canned response for the staged status_code and shuts down;
HTTP_PARSER_DONE runs http_connection_process_msg and, when
http_parser_reset succeeds, keeps parsing, otherwise closes the
connection; any other state keeps parsing. -/
def http_connection_read_loop : ConnM → List PReturn → ConnM × List Act
  | c, [] => (c, [])
  | c, PReturn.fatal :: _ =>
      ({ c with shutting_down := true },
        Act.parse :: (httpErrorEmits 500 ++ [Act.shutdown]))
  | c, PReturn.incomplete :: _ => (c, [Act.parse])
  | c, PReturn.errorState s :: _ =>
      ({ c with shutting_down := true },
        Act.parse :: (httpErrorEmits s ++ [Act.shutdown]))
  | c, PReturn.otherState :: rs =>
      let r := http_connection_read_loop c rs
      (r.1, Act.parse :: r.2)
  | c, PReturn.doneMsg msg uriOk handlerFound mr resetOk :: rs =>
      let p := http_connection_process_msg c msg uriOk handlerFound mr
      if resetOk then
        let r := http_connection_read_loop p.1 rs
        (r.1, Act.parse :: (p.2 ++ r.2))
      else
        (p.1, Act.parse :: (p.2 ++ [Act.close]))

/-- A parse outcome on which the read loop keeps looping: a state other
than error and done, or a done message whose parser reset succeeds. -/
def PReturn.isContinuing : PReturn → Bool
  | PReturn.otherState => true
  | PReturn.doneMsg _ _ _ _ resetOk => resetOk
  | _ => false

/-- C2: when http_msg_parse returns with state HTTP_PARSER_ERROR after any
run of completed messages, the read-event loop emits exactly the trace it
produced for those messages, followed by one more parse call, the canned
error response for the staged parser status_code, and the read-side
shutdown; nothing after the error outcome is parsed, and the leading
trace contains exactly one parse call per earlier message. -/
theorem claim2_parser_error_stops (c : ConnM) (pre rest : List PReturn)
    (s : Nat) (hpre : ∀ r ∈ pre, r.isContinuing = true) :
    (http_connection_read_loop c (pre ++ PReturn.errorState s :: rest)).2 =
      (http_connection_read_loop c pre).2 ++
        Act.parse :: (httpErrorEmits s ++ [Act.shutdown]) ∧
    ((http_connection_read_loop c pre).2).count Act.parse = pre.length := by
  induction pre generalizing c with
  | nil => simp [http_connection_read_loop]
  | cons r pre ih =>
    have hr : r.isContinuing = true := hpre r (by simp)
    have hpre2 : ∀ x ∈ pre, x.isContinuing = true := by
      intro x hx
      exact hpre x (by simp [hx])
    cases r with
    | fatal => simp [PReturn.isContinuing] at hr
    | incomplete => simp [PReturn.isContinuing] at hr
    | errorState s2 => simp [PReturn.isContinuing] at hr
    | otherState =>
      have h := ih c hpre2
      simp [http_connection_read_loop, h.1, h.2, List.count_cons]
    | doneMsg msg uriOk handlerFound mr resetOk =>
      have hreset : resetOk = true := by
        simpa [PReturn.isContinuing] using hr
      subst hreset
      have h := ih (http_connection_process_msg c msg uriOk handlerFound mr).1
        hpre2
      have hnp := parse_not_mem_process_msg c msg uriOk handlerFound mr
      constructor
      · simp [http_connection_read_loop, h.1]
      · simp [http_connection_read_loop, h.2, List.count_cons,
          List.count_append, List.count_eq_zero.mpr hnp]

/-- C2, witness: with no earlier completed message, a parser error staged
with status 400 makes the loop emit one parse call, the canned 400
response and the shutdown. -/
theorem claim2_parser_error_stops_witness :
    (http_connection_read_loop ⟨1, false⟩
        ([] ++ PReturn.errorState 400 :: [])).2 =
      (http_connection_read_loop ⟨1, false⟩ []).2 ++
        Act.parse :: (httpErrorEmits 400 ++ [Act.shutdown]) ∧
    ((http_connection_read_loop ⟨1, false⟩ []).2).count Act.parse =
      List.length ([] : List PReturn) :=
  claim2_parser_error_stops ⟨1, false⟩ [] [] 400 (by simp)

/-- Connection state read by http_connection_check_for_timeout: the
last_activity stamp, the configured connection_timeout of the owning
server, the write buffer holding the emitted response items, and the
shutting_down flag. Time stamps are uint64 milliseconds; they are
modelled as Nat because http_now_ms is monotonic, so the subtraction
never wraps in any scenario a claim quantifies over. -/
structure ConnT where
  last_activity : Nat
  timeout : Nat
  wbuf : List WItem
  shutting_down : Bool
  deriving DecidableEq

/-- http_connection_check_for_timeout (src/libhttp/connection.c lines
95-105): when now minus last_activity exceeds the configured timeout, the
connection gets the canned 408 response through
http_connection_http_error (appended to its write buffer) and
http_connection_shutdown is called; nothing guards against running again
on a connection already shut down. -/
def http_connection_check_for_timeout (c : ConnT) (now : Nat) :
    ConnT × List Act :=
  let diff := now - c.last_activity
  if c.timeout < diff then
    ({ c with wbuf := c.wbuf ++ errItems 408, shutting_down := true },
      httpErrorEmits 408 ++ [Act.shutdown])
  else (c, [])

/-- C5, counterexample: a connection with last_activity 0 and timeout 10
that stays unclosed (its peer drains nothing, so the write event never
closes it) is swept at times 20 and 30; after the second sweep its write
buffer carries two 408 status lines, refuting the claim that no
connection ever receives a second 408 from the timeout sweep. -/
theorem claim5_second_408 :
    ((http_connection_check_for_timeout
        (http_connection_check_for_timeout ⟨0, 10, [], false⟩ 20).1
        30).1.wbuf.count (WItem.statusLine 408)) = 2 := by
  decide

/-- C5, amended: at every sweep, a connection whose idle time now minus
last_activity exceeds the configured timeout receives the canned 408
Request Timeout response and is shut down, so it receives at least one
408; the sweep does not guard against repetition, and a connection still
unclosed and idle at a later sweep receives a further 408. -/
theorem claim5_timeout_sweep (c : ConnT) (now : Nat)
    (hmono : c.last_activity ≤ now)
    (hidle : c.timeout < now - c.last_activity) :
    (http_connection_check_for_timeout c now).2 =
      httpErrorEmits 408 ++ [Act.shutdown] ∧
    (http_connection_check_for_timeout c now).1.wbuf =
      c.wbuf ++ errItems 408 ∧
    (http_connection_check_for_timeout c now).1.shutting_down = true := by
  unfold http_connection_check_for_timeout
  rw [if_pos hidle]
  exact ⟨rfl, rfl, rfl⟩

/-- C5, witness for the amended theorem at the first sweep of the
counterexample connection. -/
theorem claim5_timeout_sweep_witness :
    (http_connection_check_for_timeout ⟨0, 10, [], false⟩ 20).2 =
      httpErrorEmits 408 ++ [Act.shutdown] ∧
    (http_connection_check_for_timeout ⟨0, 10, [], false⟩ 20).1.wbuf =
      List.nil ++ errItems 408 ∧
    (http_connection_check_for_timeout ⟨0, 10, [], false⟩ 20).1.shutting_down =
      true :=
  claim5_timeout_sweep ⟨0, 10, [], false⟩ 20 (by decide) (by decide)

/-- Connection state used by http_connection_write,
http_connection_printf and http_connection_on_write_event: the write
buffer as the list of its bytes and the shutting_down flag. -/
structure ConnW where
  wbuf : List Nat
  shuttingDown : Bool
  deriving DecidableEq

/-- http_connection_write (src/libhttp/connection.c lines 107-129):
record the previous buffer length, append the bytes with bf_buffer_add
(oracle bufAddOk, the buffer library is an external collaborator that
leaves the buffer unchanged when its allocation fails), and when the
buffer was previously empty call event_add (oracle eventAddOk); when
event_add fails, truncate the buffer back to the previous length and
return -1. The function performs no socket operation. -/
def http_connection_write (c : ConnW) (data : List Nat)
    (bufAddOk eventAddOk : Bool) : Int × ConnW × List Act :=
  let previous_length := c.wbuf.length
  if bufAddOk = false then (-1, c, [])
  else
    let c1 : ConnW := { c with wbuf := c.wbuf ++ data }
    if previous_length = 0 then
      if eventAddOk then (0, c1, [Act.eventAdd])
      else (-1, { c1 with wbuf := c1.wbuf.take previous_length }, [])
    else (0, c1, [])

/-- http_connection_printf (src/libhttp/connection.c lines 131-156): same
structure as http_connection_write, with bf_buffer_add_vprintf appending
the formatted bytes (the formatting itself happens in the buffer library,
so the formatted byte list is taken as input). -/
def http_connection_printf (c : ConnW) (formatted : List Nat)
    (bufAddOk eventAddOk : Bool) : Int × ConnW × List Act :=
  let previous_length := c.wbuf.length
  if bufAddOk = false then (-1, c, [])
  else
    let c1 : ConnW := { c with wbuf := c.wbuf ++ formatted }
    if previous_length = 0 then
      if eventAddOk then (0, c1, [Act.eventAdd])
      else (-1, { c1 with wbuf := c1.wbuf.take previous_length }, [])
    else (0, c1, [])

/-- http_connection_on_write_event (src/libhttp/connection.c lines
310-334): bf_buffer_write pushes some bytes to the socket (its result is
the oracle, none standing for the -1 return, which closes the
connection); the written prefix is then dropped with bf_buffer_skip, and
when the buffer is empty the write event is removed and, if the
connection is shutting down, it is closed. -/
def http_connection_on_write_event (c : ConnW) (writeRes : Option Nat) :
    ConnW × List Act :=
  match writeRes with
  | none => (c, [Act.close])
  | some ret =>
    let c1 : ConnW := { c with wbuf := c.wbuf.drop ret }
    if c1.wbuf.length = 0 then
      if c.shuttingDown then (c1, [Act.sockWrite ret, Act.eventDel, Act.close])
      else (c1, [Act.sockWrite ret, Act.eventDel])
    else (c1, [Act.sockWrite ret])

/-- C6: every successful call of http_connection_write or
http_connection_printf appends the given bytes to the write buffer, calls
event_add to arm writable interest exactly when the write buffer was
empty before the call, and performs no socket operation. -/
theorem claim6_write_appends (c d : ConnW) (data formatted : List Nat)
    (bufAddOk eventAddOk bufAddOk2 eventAddOk2 : Bool)
    (hw : (http_connection_write c data bufAddOk eventAddOk).1 = 0)
    (hp : (http_connection_printf d formatted bufAddOk2 eventAddOk2).1 = 0) :
    ((http_connection_write c data bufAddOk eventAddOk).2.1.wbuf =
        c.wbuf ++ data ∧
      (Act.eventAdd ∈ (http_connection_write c data bufAddOk eventAddOk).2.2 ↔
        c.wbuf = []) ∧
      ∀ a ∈ (http_connection_write c data bufAddOk eventAddOk).2.2,
        a.isSocketOp = false) ∧
    ((http_connection_printf d formatted bufAddOk2 eventAddOk2).2.1.wbuf =
        d.wbuf ++ formatted ∧
      (Act.eventAdd ∈
          (http_connection_printf d formatted bufAddOk2 eventAddOk2).2.2 ↔
        d.wbuf = []) ∧
      ∀ a ∈ (http_connection_printf d formatted bufAddOk2 eventAddOk2).2.2,
        a.isSocketOp = false) := by
  constructor
  · unfold http_connection_write at hw ⊢
    cases bufAddOk with
    | false => simp at hw
    | true =>
      by_cases hlen : c.wbuf.length = 0
      · cases eventAddOk with
        | false => simp [hlen] at hw
        | true =>
          have he : c.wbuf = [] := List.length_eq_zero.mp hlen
          simp [hlen, he, Act.isSocketOp]
      · have hne : c.wbuf ≠ [] := fun h0 => hlen (by simp [h0])
        simp [hlen, hne, Act.isSocketOp]
  · unfold http_connection_printf at hp ⊢
    cases bufAddOk2 with
    | false => simp at hp
    | true =>
      by_cases hlen : d.wbuf.length = 0
      · cases eventAddOk2 with
        | false => simp [hlen] at hp
        | true =>
          have he : d.wbuf = [] := List.length_eq_zero.mp hlen
          simp [hlen, he, Act.isSocketOp]
      · have hne : d.wbuf ≠ [] := fun h0 => hlen (by simp [h0])
        simp [hlen, hne, Act.isSocketOp]

/-- C6, witness: a successful write of one byte into an empty buffer and
a successful printf of one byte into a nonempty buffer. -/
theorem claim6_write_appends_witness :
    ((http_connection_write ⟨[], false⟩ [7] true true).2.1.wbuf =
        List.nil ++ [7] ∧
      (Act.eventAdd ∈ (http_connection_write ⟨[], false⟩ [7] true true).2.2 ↔
        ([] : List Nat) = []) ∧
      ∀ a ∈ (http_connection_write ⟨[], false⟩ [7] true true).2.2,
        a.isSocketOp = false) ∧
    ((http_connection_printf ⟨[3], false⟩ [9] true true).2.1.wbuf =
        [3] ++ [9] ∧
      (Act.eventAdd ∈ (http_connection_printf ⟨[3], false⟩ [9] true true).2.2 ↔
        [3] = ([] : List Nat)) ∧
      ∀ a ∈ (http_connection_printf ⟨[3], false⟩ [9] true true).2.2,
        a.isSocketOp = false) :=
  claim6_write_appends ⟨[], false⟩ ⟨[3], false⟩ [7] [9] true true true true
    (by decide) (by decide)

/-- C7: on a write event with a successful socket write of n bytes (n at
most the buffer length, since bf_buffer_write writes out of the buffer),
the written prefix is dropped from the write buffer; when this leaves the
buffer empty, the write event is removed and the connection is closed iff
shutting_down is set at that moment; when bytes remain, neither removal
nor close happens. -/
theorem claim7_write_event (c : ConnW) (n : Nat) (h : n ≤ c.wbuf.length) :
    (http_connection_on_write_event c (some n)).1.wbuf = c.wbuf.drop n ∧
    ((http_connection_on_write_event c (some n)).1.wbuf = [] →
      Act.eventDel ∈ (http_connection_on_write_event c (some n)).2 ∧
      (Act.close ∈ (http_connection_on_write_event c (some n)).2 ↔
        c.shuttingDown = true)) ∧
    ((http_connection_on_write_event c (some n)).1.wbuf ≠ [] →
      (http_connection_on_write_event c (some n)).2 = [Act.sockWrite n]) := by
  unfold http_connection_on_write_event
  by_cases he : (c.wbuf.drop n).length = 0
  · have hle : c.wbuf.length ≤ n := by
      simp [List.length_drop] at he
      omega
    by_cases hs : c.shuttingDown <;> simp [he, hs, hle]
  · have hcond : ¬(c.wbuf.length - n = 0) := by
      simp [List.length_drop] at he
      omega
    have hne : List.drop n c.wbuf ≠ [] := by
      intro h0
      rw [h0] at he
      simp at he
    simp [List.length_drop, hcond, hne]

/-- C7, witness: draining both bytes of a two-byte buffer on a connection
that is shutting down. -/
theorem claim7_write_event_witness :
    (http_connection_on_write_event ⟨[4, 5], true⟩ (some 2)).1.wbuf =
      List.drop 2 [4, 5] ∧
    ((http_connection_on_write_event ⟨[4, 5], true⟩ (some 2)).1.wbuf = [] →
      Act.eventDel ∈ (http_connection_on_write_event ⟨[4, 5], true⟩ (some 2)).2 ∧
      (Act.close ∈ (http_connection_on_write_event ⟨[4, 5], true⟩ (some 2)).2 ↔
        true = true)) ∧
    ((http_connection_on_write_event ⟨[4, 5], true⟩ (some 2)).1.wbuf ≠ [] →
      (http_connection_on_write_event ⟨[4, 5], true⟩ (some 2)).2 =
        [Act.sockWrite 2]) :=
  claim7_write_event ⟨[4, 5], true⟩ 2 (by decide)

/-- C10: when http_connection_write or http_connection_printf appends to a
previously empty write buffer and then fails because event_add fails, the
call returns -1 and the write buffer is truncated back to its previous
length, so its contents are unchanged. -/
theorem claim10_failed_write_atomic (c d : ConnW) (data formatted : List Nat)
    (he : c.wbuf = []) (hd : d.wbuf = []) :
    ((http_connection_write c data true false).1 = -1 ∧
      (http_connection_write c data true false).2.1.wbuf = c.wbuf) ∧
    ((http_connection_printf d formatted true false).1 = -1 ∧
      (http_connection_printf d formatted true false).2.1.wbuf = d.wbuf) := by
  constructor
  · unfold http_connection_write
    simp [he]
  · unfold http_connection_printf
    simp [hd]

/-- C10, witness: a failed write and a failed printf on empty buffers. -/
theorem claim10_failed_write_atomic_witness :
    ((http_connection_write ⟨[], false⟩ [7] true false).1 = -1 ∧
      (http_connection_write ⟨[], false⟩ [7] true false).2.1.wbuf = []) ∧
    ((http_connection_printf ⟨[], true⟩ [8, 9] true false).1 = -1 ∧
      (http_connection_printf ⟨[], true⟩ [8, 9] true false).2.1.wbuf = []) :=
  claim10_failed_write_atomic ⟨[], false⟩ ⟨[], true⟩ [7] [8, 9] rfl rfl

/-- The fields of struct http_connection (src/libhttp/internal.h) that
http_connection_close inspects or owns: the socket descriptor, the two
libevent handles, and the queue of request infos declared at
src/libhttp/internal.h lines 363-364 (requests_first and requests_last),
modelled as the list of the queued descriptors. The read buffer, write
buffer and parser are owned unconditionally, so they need no field
here. -/
structure ConnC where
  sock : Int
  hasEvRead : Bool
  hasEvWrite : Bool
  requestInfos : List Nat
  deriving DecidableEq

/-- Modelled from the spec: http_parser_free is defined in parser.c,
which is absent from this snapshot; the spec says release frees the
parser partial message, so freeing the parser is recorded as freeing
that message. -/
def http_parser_free_acts : List Act :=
  [Act.freeParserMsg]

/-- http_connection_close (src/libhttp/connection.c lines 196-221): when
the socket is still open, remove the connection from the server
connections table and close the socket; free the read and write event
handles that exist; delete the read and write buffers; free the parser
(and with it its partial message); wipe and free the connection struct.
No statement of the function touches the request-info queue. -/
def http_connection_close (c : ConnC) : List Act :=
  (if 0 ≤ c.sock then [Act.tableRemove c.sock, Act.closeSock] else []) ++
  (if c.hasEvRead then [Act.freeEvRead] else []) ++
  (if c.hasEvWrite then [Act.freeEvWrite] else []) ++
  ([Act.freeRbuf, Act.freeWbuf] ++ http_parser_free_acts ++ [Act.freeConn])

/-- C8, counterexample: closing a concrete connection with socket 3, both
event handles, and one request info still queued never frees that queued
request info, refuting the claim that close frees all request infos still
queued on the connection. -/
theorem claim8_requestinfo_leak :
    (0 : Nat) ∈ (ConnC.mk 3 true true [0]).requestInfos ∧
    Act.freeRequestInfo 0 ∉ http_connection_close (ConnC.mk 3 true true [0]) := by
  decide

/-- C8, amended: closing a connection whose socket is open removes it
from the connections-by-fd table of the server, closes its socket, and
releases its read buffer, its write buffer, and the parser together with
its partial message; the request infos still queued on the connection are
not freed by http_connection_close. -/
theorem claim8_close_releases (c : ConnC) (hs : 0 ≤ c.sock) :
    Act.tableRemove c.sock ∈ http_connection_close c ∧
    Act.closeSock ∈ http_connection_close c ∧
    Act.freeRbuf ∈ http_connection_close c ∧
    Act.freeWbuf ∈ http_connection_close c ∧
    Act.freeParserMsg ∈ http_connection_close c ∧
    Act.freeConn ∈ http_connection_close c ∧
    ∀ i : Nat, Act.freeRequestInfo i ∉ http_connection_close c := by
  unfold http_connection_close http_parser_free_acts
  rw [if_pos hs]
  cases c.hasEvRead <;> cases c.hasEvWrite <;> simp

/-- C8, witness for the amended theorem at the counterexample
connection. -/
theorem claim8_close_releases_witness :
    Act.tableRemove (ConnC.mk 3 true true [5]).sock ∈
      http_connection_close (ConnC.mk 3 true true [5]) ∧
    Act.closeSock ∈ http_connection_close (ConnC.mk 3 true true [5]) ∧
    Act.freeRbuf ∈ http_connection_close (ConnC.mk 3 true true [5]) ∧
    Act.freeWbuf ∈ http_connection_close (ConnC.mk 3 true true [5]) ∧
    Act.freeParserMsg ∈ http_connection_close (ConnC.mk 3 true true [5]) ∧
    Act.freeConn ∈ http_connection_close (ConnC.mk 3 true true [5]) ∧
    ∀ i : Nat,
      Act.freeRequestInfo i ∉ http_connection_close (ConnC.mk 3 true true [5]) :=
  claim8_close_releases (ConnC.mk 3 true true [5]) (by decide)

/-- Modelled from the spec: the bufferization policy enum referenced in
cfg.c as HTTP_BUFFERIZE_AUTO; its definition is absent from this
snapshot, and the spec lists the values auto, full and none. -/
inductive Bufferization where
  | auto
  | full
  | none
  deriving DecidableEq

/-- The fields of struct http_cfg (src/libhttp/http.h) that http_cfg_init
assigns, with the content decoder registry kept as the list of registered
content types. -/
structure Cfg where
  host : String
  port : String
  connection_backlog : Nat
  max_request_uri_length : Nat
  max_header_name_length : Nat
  max_header_value_length : Nat
  max_content_length : Nat
  max_chunk_length : Nat
  bufferization : Bufferization
  connection_timeout : Nat
  content_decoders : List String
  deriving DecidableEq

/-- http_cfg_init (src/libhttp/cfg.c lines 22-53) on the path where the
decoder registration allocates successfully: register the urlencoded form
decoder, then assign every default. -/
def http_cfg_init : Cfg :=
  { host := "localhost"
    port := "80"
    connection_backlog := 5
    max_request_uri_length := 2048
    max_header_name_length := 128
    max_header_value_length := 4096
    max_content_length := 16 * 1000 * 1000
    max_chunk_length := 1000 * 1000
    bufferization := Bufferization.auto
    connection_timeout := 10000
    content_decoders := ["application/x-www-form-urlencoded"] }

/-- C9: a freshly initialized configuration has exactly the documented
defaults: connection_backlog 5, max_request_uri_length 2048,
max_header_name_length 128, max_header_value_length 4096,
max_content_length 16000000, max_chunk_length 1000000, bufferization
auto, and connection_timeout 10000 milliseconds. -/
theorem claim9_cfg_defaults :
    http_cfg_init.connection_backlog = 5 ∧
    http_cfg_init.max_request_uri_length = 2048 ∧
    http_cfg_init.max_header_name_length = 128 ∧
    http_cfg_init.max_header_value_length = 4096 ∧
    http_cfg_init.max_content_length = 16000000 ∧
    http_cfg_init.max_chunk_length = 1000000 ∧
    http_cfg_init.bufferization = Bufferization.auto ∧
    http_cfg_init.connection_timeout = 10000 := by
  decide

end LibHttp
